import Mathlib

/-!
Verification of the UnitPort graph-editing core.

This file gives a shallow embedding of the graph scene of
`src/bin/components/graph_scene.py` (node creation, connection
creation/deletion, reconnection, input-field propagation and code
generation), of the node registry of `src/nodes/__init__.py`, of the
comparison node of `src/nodes/sys_nodes/logic_nodes.py`, and of the
port snap search `GraphScene._find_port_near`.

Conventions of the embedding:
* Qt graphics items are modelled as an arena addressed by natural-number
  ids.  A node rect owns its ports (`PortData.node`); a port stores its
  direction (`data(1)`), its slot name (`data(3)`) and its attached
  connection list (`data(2)`) as a list of connection ids.
* `ConnectionItem` objects live in `Scene.connArena` forever (Python
  references keep them alive); membership of `Scene.sceneConns` models
  membership of the Qt scene (`removeItem` removes the id from that
  set).  `shiboken6.isValid`/`scene()` tests on ports are modelled by
  lookup in `Scene.ports`, from which a deleted node's ports vanish.
* Widget texts (`QLineEdit.text()`, combo current text) are stored as
  string fields of `NodeData`; `_update_node_params` mirrors those
  texts into the node's parameter dict, so the widget text is the
  authoritative "parameter field" value.
* `self.items()` iteration order (descending stacking order, newest
  node on top) is modelled by prepending freshly created nodes to
  `Scene.nodes`.
-/

/-- Boolean test that `p` is a prefix of the second list (character lists). -/
def strStartsAux : List Char → List Char → Bool
  | [], _ => true
  | _ :: _, [] => false
  | a :: as, b :: bs => a == b && strStartsAux as bs

/-- Boolean test that the first character list occurs inside the second. -/
def strFindSub (needle : List Char) : List Char → Bool
  | [] => strStartsAux needle []
  | b :: bs => strStartsAux needle (b :: bs) || strFindSub needle bs

/-- Python `needle in hay` on strings. -/
def strContains (hay needle : String) : Bool :=
  strFindSub needle.toList hay.toList

/-- Python `s.startswith(p)`. -/
def strStarts (s p : String) : Bool :=
  strStartsAux p.toList s.toList

/-- Python `s.lower()` (structural recursion over the character list). -/
def strLowerAux : List Char → List Char
  | [] => []
  | c :: cs => c.toLower :: strLowerAux cs

/-- Python `s.lower()`. -/
def strToLower (s : String) : String := ⟨strLowerAux s.data⟩

/-- Parses a decimal digit string, as Python `int(...)` does on digits. -/
def digitsToNat? (cs : List Char) : Option Nat :=
  match cs with
  | [] => none
  | _ =>
    cs.foldl (fun acc c =>
      match acc with
      | none => none
      | some n => if c.isDigit then some (n * 10 + (c.toNat - 48)) else none)
      (some 0)

/-- Lookup in an association list (Python dict / keyed item search). -/
def getAssoc [BEq κ] (l : List (κ × α)) (k : κ) : Option α :=
  (l.find? (fun kv => kv.1 == k)).map (·.2)

/-- Pointwise update of the value stored at key `k`. -/
def setAssoc [BEq κ] (l : List (κ × α)) (k : κ) (f : α → α) : List (κ × α) :=
  l.map (fun kv => if kv.1 == k then (kv.1, f kv.2) else kv)

theorem getAssoc_setAssoc_self [BEq κ] [LawfulBEq κ] (l : List (κ × α)) (k : κ) (f : α → α) :
    getAssoc (setAssoc l k f) k = (getAssoc l k).map f := by
  induction l with
  | nil => rfl
  | cons kv tl ih =>
    by_cases h : kv.1 = k
    · simp [getAssoc, setAssoc, List.find?, h]
    · have hb : (kv.1 == k) = false := beq_eq_false_iff_ne.mpr h
      simpa [getAssoc, setAssoc, List.find?, hb] using ih

theorem getAssoc_setAssoc_ne [BEq κ] [LawfulBEq κ] (l : List (κ × α)) (k k' : κ) (f : α → α)
    (h : k ≠ k') : getAssoc (setAssoc l k f) k' = getAssoc l k' := by
  induction l with
  | nil => rfl
  | cons kv tl ih =>
    by_cases hk : kv.1 = k
    · have hb : (kv.1 == k) = true := beq_iff_eq.mpr hk
      have hb' : (kv.1 == k') = false := beq_eq_false_iff_ne.mpr (hk ▸ h)
      simp [getAssoc, setAssoc, List.find?, hb, hb'] at *
      simpa [getAssoc, setAssoc] using ih
    · have hb : (kv.1 == k) = false := beq_eq_false_iff_ne.mpr hk
      by_cases hk' : kv.1 = k'
      · simp [getAssoc, setAssoc, List.find?, hb, beq_iff_eq.mpr hk']
      · simpa [getAssoc, setAssoc, List.find?, hb, beq_eq_false_iff_ne.mpr hk'] using ih

theorem getAssoc_append_left [BEq κ] (l₁ l₂ : List (κ × α)) (k : κ) (v : α)
    (h : getAssoc l₁ k = some v) : getAssoc (l₁ ++ l₂) k = some v := by
  unfold getAssoc at h ⊢
  rw [List.find?_append]
  cases hf : List.find? (fun kv => kv.1 == k) l₁ with
  | none => rw [hf] at h; simp at h
  | some a => rw [hf] at h; simpa using h

/-- Port direction, port item `data(1)` (`"in"` / `"out"`). -/
inductive Dir where
  | din
  | dout
deriving DecidableEq, Repr

/-- One port item: owner node id, direction, slot id and attached connections. -/
structure PortData where
  node : Nat
  dir : Dir
  slot : String
  conns : List Nat
deriving DecidableEq, Repr

/-- One `ConnectionItem`: `out_port` / `in_port` references (an endpoint is
`none` while it is detached during reconnection). -/
structure ConnData where
  outPort : Option Nat
  inPort : Option Nat
deriving DecidableEq, Repr

/-- The three widget layouts built by `create_node`, keyed on the node name:
names containing `"Logic Control"` get the if/loop widgets, names containing
`"Condition"` get the comparison widgets, all other names get a single combo. -/
inductive NodeKind where
  | logicControl
  | conditionK
  | other
deriving DecidableEq, Repr

/-- A node rect together with its widget texts. -/
structure NodeData where
  name : String
  kind : NodeKind
  comboText : String
  conditionText : String
  conditionLabelText : String
  elifTexts : List String
  loopTypeText : String
  forStartText : String
  forEndText : String
  forStepText : String
  leftText : String
  rightText : String
deriving DecidableEq, Repr

/-- The `GraphScene` state. -/
structure Scene where
  nodeSeq : Nat
  portSeq : Nat
  connSeq : Nat
  nodes : List (Nat × NodeData)
  ports : List (Nat × PortData)
  connArena : List (Nat × ConnData)
  sceneConns : List Nat
  tempStartPort : Option Nat
  reconnecting : Bool
  reconnConn : Option Nat
  reconnEnd : String
  editorText : String
deriving DecidableEq, Repr

def initScene : Scene :=
  { nodeSeq := 0, portSeq := 0, connSeq := 0, nodes := [], ports := [],
    connArena := [], sceneConns := [], tempStartPort := none,
    reconnecting := false, reconnConn := none, reconnEnd := "", editorText := "" }

def findNode (s : Scene) (nid : Nat) : Option NodeData := getAssoc s.nodes nid

def findPort (s : Scene) (pid : Nat) : Option PortData := getAssoc s.ports pid

def findConn (s : Scene) (cid : Nat) : Option ConnData := getAssoc s.connArena cid

def updateNode (s : Scene) (nid : Nat) (f : NodeData → NodeData) : Scene :=
  { s with nodes := setAssoc s.nodes nid f }

def updatePort (s : Scene) (pid : Nat) (f : PortData → PortData) : Scene :=
  { s with ports := setAssoc s.ports pid f }

def updateConn (s : Scene) (cid : Nat) (f : ConnData → ConnData) : Scene :=
  { s with connArena := setAssoc s.connArena cid f }

/-- `"Logic Control" in name or "逻辑控制" in name` (graph_scene.py). -/
def is_logic_name (name : String) : Bool :=
  strContains name "Logic Control" || strContains name "逻辑控制"

/-- `"Condition" in name or "条件判断" in name` (graph_scene.py). -/
def is_condition_name (name : String) : Bool :=
  strContains name "Condition" || strContains name "条件判断"

/-- Visibility of the condition `QLineEdit` of a Logic Control node: visible
in if-mode (`_set_if_only`), hidden in loop mode (`_set_loop_mode`), as driven
by `_on_mode_change` from the mode combo text. -/
def condition_input_visible (n : NodeData) : Bool :=
  n.kind == .logicControl && !(strStarts (strToLower n.comboText) "while")

/-- `GraphScene._format_connection_label`. -/
def format_connection_label (s : Scene) (outPid : Nat) : String :=
  match findPort s outPid with
  | none => ""
  | some p =>
    match findNode s p.node with
    | some n => n.name ++ "." ++ p.slot
    | none => p.slot

/-- The slot dispatch of `GraphScene._apply_connection_to_input`: which widget
of the destination node receives the label text.  Attribute presence
(`getattr(node_item, "_condition_input", None)` etc.) is determined by the
node's kind. -/
def apply_slot (n : NodeData) (slot label : String) : NodeData :=
  if slot == "condition" then
    if n.kind == .logicControl then
      if condition_input_visible n then { n with conditionText := label }
      else { n with conditionLabelText := label }
    else n
  else if strStarts slot "elif_" then
    match digitsToNat? (slot.toList.drop 5) with
    | some idx => { n with elifTexts := n.elifTexts.set idx label }
    | none => n
  else if slot == "for_start" then
    if n.kind == .logicControl then { n with forStartText := label } else n
  else if slot == "for_end" then
    if n.kind == .logicControl then { n with forEndText := label } else n
  else if slot == "for_step" then
    if n.kind == .logicControl then { n with forStepText := label } else n
  else if slot == "left" then
    if n.kind == .conditionK then { n with leftText := label } else n
  else if slot == "right" then
    if n.kind == .conditionK then { n with rightText := label } else n
  else n

/-- The slot dispatch of `GraphScene._clear_input_for_port`: resets the
destination widget to its placeholder state. -/
def clear_slot (n : NodeData) (slot : String) : NodeData :=
  if slot == "condition" then
    if n.kind == .logicControl then
      if condition_input_visible n then { n with conditionText := "" }
      else { n with conditionLabelText := "Condition" }
    else n
  else if strStarts slot "elif_" then
    match digitsToNat? (slot.toList.drop 5) with
    | some idx => { n with elifTexts := n.elifTexts.set idx "" }
    | none => n
  else if slot == "for_start" then
    if n.kind == .logicControl then { n with forStartText := "" } else n
  else if slot == "for_end" then
    if n.kind == .logicControl then { n with forEndText := "" } else n
  else if slot == "for_step" then
    if n.kind == .logicControl then { n with forStepText := "" } else n
  else if slot == "left" then
    if n.kind == .conditionK then { n with leftText := "" } else n
  else if slot == "right" then
    if n.kind == .conditionK then { n with rightText := "" } else n
  else n

/-- `GraphScene._apply_connection_to_input`. -/
def apply_connection_to_input (s : Scene) (inPid outPid : Nat) : Scene :=
  match findPort s inPid with
  | none => s
  | some ip =>
    match findNode s ip.node with
    | none => s
    | some _ =>
      let label := format_connection_label s outPid
      updateNode s ip.node (fun n => apply_slot n ip.slot label)

/-- `GraphScene._clear_input_for_port`. -/
def clear_input_for_port (s : Scene) (inPid : Nat) : Scene :=
  match findPort s inPid with
  | none => s
  | some ip =>
    match findNode s ip.node with
    | none => s
    | some _ => updateNode s ip.node (fun n => clear_slot n ip.slot)

/-- `GraphScene._attach_connection_safe`: rebuilds the port's connection list
keeping only connections still in the scene, then appends the new one. -/
def attach_connection_safe (s : Scene) (pid cid : Nat) : Scene :=
  updatePort s pid (fun p =>
    { p with conns := p.conns.filter (fun c => s.sceneConns.contains c) ++ [cid] })

/-- Lines of the generated program for one node (`GraphScene.regenerate_code`,
per-node body). -/
def node_code_lines (nid : Nat) (n : NodeData) : List String :=
  let header := ["    # " ++ n.name ++ " (ID: " ++ toString nid ++ ")",
                 "    # Action: " ++ n.comboText]
  let logicLines :=
    if is_logic_name n.name then
      let isIf := strStarts (strToLower n.comboText) "if"
      let condLine :=
        if n.kind == .logicControl then ["    # condition: " ++ n.conditionText] else []
      let branchLines :=
        if isIf then
          (if n.kind == .logicControl then n.elifTexts else []).enum.map
            (fun it => "    # elif_" ++ toString it.1 ++ ": " ++ it.2)
        else
          let loopType := if n.kind == .logicControl then n.loopTypeText else "While"
          ["    # loop_type: " ++ loopType] ++
          (if loopType == "For" && n.kind == .logicControl then
            ["    # for: start=" ++ n.forStartText ++ ", end=" ++ n.forEndText ++
             ", step=" ++ n.forStepText]
          else [])
      condLine ++ branchLines
    else []
  let condKLines :=
    if is_condition_name n.name then
      if n.kind == .conditionK then
        ["    # left: " ++ n.leftText, "    # right: " ++ n.rightText]
      else []
    else []
  header ++ logicLines ++ condKLines ++ [""]

/-- `GraphScene.regenerate_code`: the full ordered line list, iterating the
scene's node items in stacking order. -/
def regenerate_code (s : Scene) : List String :=
  (["# Auto-generated code", "# Generated by Celebrimbor", "",
    "def execute_workflow():"] ++
   s.nodes.foldl (fun acc kv => acc ++ node_code_lines kv.1 kv.2) []) ++
  ["if __name__ == \x27__main__\x27:", "    execute_workflow()"]

/-- `regenerate_code` followed by `code_editor.set_code("\n".join(lines))`. -/
def regen_op (s : Scene) : Scene :=
  { s with editorText := String.intercalate "\n" (regenerate_code s) }

/-- `GraphScene._create_connection`. -/
def create_connection (s : Scene) (outPid inPid : Nat) : Scene :=
  let cid := s.connSeq
  let s1 := { s with connArena := (cid, ⟨some outPid, some inPid⟩) :: s.connArena,
                     sceneConns := cid :: s.sceneConns,
                     connSeq := cid + 1 }
  let s2 := attach_connection_safe s1 outPid cid
  let s3 := attach_connection_safe s2 inPid cid
  apply_connection_to_input s3 inPid outPid

/-- `GraphScene._start_connection` (the temporary visual path item is not part
of the graph model). -/
def start_connection (s : Scene) (pid : Nat) : Scene :=
  { s with tempStartPort := some pid }

/-- `GraphScene._cancel_connection`. -/
def cancel_connection (s : Scene) : Scene :=
  { s with tempStartPort := none }

/-- Outcome of a release over a port: the taxonomy of §7 of the spec. -/
inductive ConnectResult where
  | connected
  | directionMismatch
  | aborted
deriving DecidableEq, Repr

/-- `GraphScene._finish_connection`: direction check, out/in selection,
connection creation, gesture cleanup, regeneration. -/
def finish_connection (s : Scene) (targetPid : Nat) : Scene × ConnectResult :=
  match s.tempStartPort with
  | none => (cancel_connection s, .aborted)
  | some startPid =>
    match findPort s startPid, findPort s targetPid with
    | some sp, some tp =>
      if sp.dir == tp.dir then (cancel_connection s, .directionMismatch)
      else
        let outPid := if sp.dir == .dout then startPid else targetPid
        let inPid := if sp.dir == .dout then targetPid else startPid
        (regen_op (cancel_connection (create_connection s outPid inPid)), .connected)
    | _, _ => (cancel_connection s, .aborted)

/-- First half of `GraphScene._detach_connection`: if the connection's
`out_port` is set and still valid, remove the connection from its list
(`conns.remove(connection)`, first occurrence). -/
def detach_out_step (s : Scene) (cid : Nat) : Option Nat → Scene
  | some op =>
    match findPort s op with
    | some p =>
      if p.conns.contains cid then
        updatePort s op (fun q => { q with conns := q.conns.erase cid })
      else s
    | none => s
  | none => s

/-- Second half of `GraphScene._detach_connection`: if the connection's
`in_port` is set and still valid, remove the connection from its list and
then `_clear_input_for_port(connection.in_port)`. -/
def detach_in_step (s1 : Scene) (cid : Nat) : Option Nat → Scene
  | some ip =>
    match findPort s1 ip with
    | some p =>
      let s2 :=
        if p.conns.contains cid then
          updatePort s1 ip (fun q => { q with conns := q.conns.erase cid })
        else s1
      clear_input_for_port s2 ip
    | none => s1
  | none => s1

/-- `GraphScene._detach_connection`: remove the connection from both ports'
lists and clear the destination widget. -/
def detach_connection (s : Scene) (cid : Nat) : Scene :=
  match findConn s cid with
  | none => s
  | some c => detach_in_step (detach_out_step s cid c.outPort) cid c.inPort

/-- `GraphScene._delete_items` applied to one selected `ConnectionItem`. -/
def delete_connection_item (s : Scene) (cid : Nat) : Scene :=
  let s1 := detach_connection s cid
  regen_op { s1 with sceneConns := s1.sceneConns.filter (fun c => c != cid) }

/-- `removeItem(conn)` on the scene's connection set. -/
def remove_scene_conn (cs : List Nat) (cid : Nat) : List Nat :=
  cs.filter (fun c => c != cid)

/-- The inner loop of `_delete_node_connections` over one port's list. -/
def delete_conns_of_port (cs : List Nat) (conns : List Nat) : List Nat :=
  conns.foldl remove_scene_conn cs

/-- `GraphScene._delete_node_connections`: removes from the scene every
connection found in the lists of the node's ports.  Note that it does NOT
detach those connections from their other endpoint's list. -/
def delete_node_connections (s : Scene) (nid : Nat) : Scene :=
  let nodePorts := s.ports.filter (fun pp => pp.2.node == nid)
  { s with sceneConns :=
      nodePorts.foldl (fun cs pp => delete_conns_of_port cs pp.2.conns) s.sceneConns }

/-- `GraphScene._delete_items` applied to one selected node rect: cascade
delete its connections, then remove the rect (with its child ports) and
regenerate. -/
def delete_items_node (s : Scene) (nid : Nat) : Scene :=
  if (findNode s nid).isSome then
    let s1 := delete_node_connections s nid
    regen_op { s1 with nodes := s1.nodes.filter (fun kv => kv.1 != nid),
                       ports := s1.ports.filter (fun pp => pp.2.node != nid) }
  else s

/-- `GraphScene._start_reconnection`: detaches the grabbed endpoint from the
model and remembers the original port as the gesture's start port. -/
def start_reconnection (s : Scene) (cid : Nat) (endType : String) : Scene :=
  match findConn s cid with
  | none => s
  | some c =>
    let s1 := { s with reconnecting := true, reconnConn := some cid, reconnEnd := endType }
    if endType == "start" then
      { updateConn s1 cid (fun q => { q with outPort := none }) with tempStartPort := c.outPort }
    else
      { updateConn s1 cid (fun q => { q with inPort := none }) with tempStartPort := c.inPort }

/-- `GraphScene._cancel_reconnection`: drops the gesture state; the detached
endpoint of the connection is NOT restored. -/
def cancel_reconnection (s : Scene) : Scene :=
  { s with reconnConn := none, tempStartPort := none, reconnecting := false }

/-- `GraphScene._finish_reconnection`.  The direction check compares the
target port against the ORIGINAL port of the grabbed end
(`start_io = self._temp_start_port.data(1)`). -/
def finish_reconnection (s : Scene) (targetPid : Nat) : Scene :=
  match s.reconnConn with
  | none => cancel_reconnection s
  | some cid =>
    match s.tempStartPort with
    | none => cancel_reconnection s
    | some startPid =>
      match findPort s startPid, findPort s targetPid with
      | some sp, some tp =>
        if sp.dir == tp.dir then cancel_reconnection s
        else
          let s1 :=
            if s.reconnEnd == "start" then
              if sp.dir == .dout then
                updateConn s cid (fun q => { q with outPort := some targetPid })
              else
                updateConn s cid (fun q => { q with inPort := some targetPid })
            else
              if sp.dir == .dout then
                updateConn s cid (fun q => { q with inPort := some targetPid })
              else
                updateConn s cid (fun q => { q with outPort := some targetPid })
          let s2 := attach_connection_safe s1 targetPid cid
          let s3 :=
            match findConn s2 cid with
            | some { outPort := some op, inPort := some ip } =>
              apply_connection_to_input s2 ip op
            | _ => s2
          regen_op (cancel_reconnection s3)
      | _, _ => cancel_reconnection s

def logic_default_features : List String := ["If", "While Loop"]

def condition_default_features : List String :=
  ["Equal", "Not Equal", "Greater Than", "Less Than"]

def action_default_features : List String :=
  ["Lift Right Leg", "Stand", "Sit", "Walk", "Stop"]

def sensor_default_features : List String :=
  ["Read Ultrasonic", "Read Infrared", "Read Camera", "Read IMU", "Read Odometry"]

def compute_default_features : List String :=
  ["Add", "Subtract", "Multiply", "Divide"]

/-- Which widget layout `create_node` builds, from the node name. -/
def node_kind_for_name (name : String) : NodeKind :=
  if is_logic_name name then .logicControl
  else if is_condition_name name then .conditionK
  else .other

/-- The ports `create_node` builds for each layout (slots and directions as
passed to `_mk_port`). -/
def ports_for (kind : NodeKind) (nid basePid : Nat) : List (Nat × PortData) :=
  match kind with
  | .logicControl =>
    [(basePid, ⟨nid, .din, "flow_in", []⟩),
     (basePid + 1, ⟨nid, .din, "condition", []⟩),
     (basePid + 2, ⟨nid, .din, "for_start", []⟩),
     (basePid + 3, ⟨nid, .din, "for_end", []⟩),
     (basePid + 4, ⟨nid, .din, "for_step", []⟩),
     (basePid + 5, ⟨nid, .dout, "out_true", []⟩),
     (basePid + 6, ⟨nid, .dout, "out_false", []⟩),
     (basePid + 7, ⟨nid, .dout, "loop_body", []⟩),
     (basePid + 8, ⟨nid, .dout, "loop_end", []⟩)]
  | .conditionK =>
    [(basePid, ⟨nid, .din, "left", []⟩),
     (basePid + 1, ⟨nid, .din, "right", []⟩),
     (basePid + 2, ⟨nid, .dout, "result", []⟩)]
  | .other =>
    [(basePid, ⟨nid, .din, "flow_in", []⟩),
     (basePid + 1, ⟨nid, .dout, "flow_out", []⟩)]

/-- `features = features or [defaults...]` per layout branch. -/
def default_features_for (kind : NodeKind) (name : String) (features : List String) :
    List String :=
  if !features.isEmpty then features
  else match kind with
    | .logicControl => logic_default_features
    | .conditionK => condition_default_features
    | .other =>
      if strContains name "Action Execution" then action_default_features
      else if strContains name "Sensor Input" then sensor_default_features
      else if strContains name "Compute" then compute_default_features
      else features

/-- `GraphScene.create_node`: allocates the next sequence id, builds the
kind-specific ports and widget defaults, and regenerates the code. -/
def create_node (s : Scene) (name : String) (features : List String) : Scene :=
  let kind := node_kind_for_name name
  let fs := default_features_for kind name features
  let node : NodeData :=
    { name := name, kind := kind, comboText := fs.headD "",
      conditionText := "", conditionLabelText := "Condition", elifTexts := [],
      loopTypeText := "While", forStartText := "", forEndText := "",
      forStepText := "", leftText := "", rightText := "" }
  let nid := s.nodeSeq
  let newPorts := ports_for kind nid s.portSeq
  regen_op { s with nodeSeq := nid + 1,
                    portSeq := s.portSeq + newPorts.length,
                    nodes := (nid, node) :: s.nodes,
                    ports := s.ports ++ newPorts }

/-- A user edit of a Logic Control node's condition `QLineEdit` (the
`textChanged` handler then mirrors it into the node's params). -/
def set_condition_text (s : Scene) (nid : Nat) (t : String) : Scene :=
  updateNode s nid (fun n => { n with conditionText := t })

/-- The node-lifecycle operations of a session, for the id-uniqueness claim. -/
inductive SceneOp where
  | create (name : String) (features : List String)
  | deleteSel (nid : Nat)

/-- One step of a session. -/
def step_op (s : Scene) : SceneOp → Scene
  | .create name features => create_node s name features
  | .deleteSel nid => delete_items_node s nid

/-- Run a whole session from a starting scene. -/
def run_ops (s : Scene) (ops : List SceneOp) : Scene := ops.foldl step_op s

/-- The node identities issued by `create_node` along a session, in order. -/
def issued_ids (s : Scene) : List SceneOp → List Nat
  | [] => []
  | op :: rest =>
    match op with
    | .create _ _ => s.nodeSeq :: issued_ids (step_op s op) rest
    | .deleteSel _ => issued_ids (step_op s op) rest

/-- Number of `create` operations in a session. -/
def create_count : List SceneOp → Nat
  | [] => 0
  | .create _ _ :: rest => create_count rest + 1
  | .deleteSel _ :: rest => create_count rest

/-- A port as seen by the snap search: scene coordinates of its center and
its visual radius (4 or 6 px in `_mk_port`). -/
structure PPort where
  cx : Int
  cy : Int
  r : Int
deriving DecidableEq, Repr

/-- Squared Euclidean distance from the port center to a point
(`dist2 = (c.x() - pos.x()) ** 2 + (c.y() - pos.y()) ** 2`). -/
def dist2 (p : PPort) (px py : Int) : Int :=
  (p.cx - px) ^ 2 + (p.cy - py) ^ 2

/-- Whether a circular port item intersects an axis-aligned rectangle: the
`Qt.IntersectsItemShape` test performed by `self.items(search_rect)`. -/
def port_intersects_rect (p : PPort) (left top right bottom : Int) : Bool :=
  let nx := max left (min p.cx right)
  let ny := max top (min p.cy bottom)
  decide ((p.cx - nx) ^ 2 + (p.cy - ny) ^ 2 ≤ p.r ^ 2)

/-- Candidate test of `_find_port_near`: the port intersects the
`QRectF(pos.x() - radius, pos.y() - radius, radius * 2, radius * 2)` square. -/
def in_search_rect (p : PPort) (px py radius : Int) : Bool :=
  port_intersects_rect p (px - radius) (py - radius) (px + radius) (py + radius)

/-- `GraphScene._find_port_near` with its default `radius=14`: collects the
ports intersecting the search square, and returns the first one of minimal
squared distance (`min(candidates, key=lambda t: t[0])`). -/
def find_port_near (ports : List PPort) (px py : Int) : Option PPort :=
  match (ports.filter (fun p => in_search_rect p px py 14)).map
      (fun p => (dist2 p px py, p)) with
  | [] => none
  | c :: cs => some ((cs.foldl (fun best x => if x.1 < best.1 then x else best) c).2)

/-- The node registry `REGISTERED_NODES` of `src/nodes/__init__.py`: an
insertion-ordered dict from kind name to node class (classes are opaque,
identified by name). -/
abbrev Registry := List (String × String)

/-- `register_node`: a plain dict assignment `REGISTERED_NODES[node_type] =
node_class` — replaces the value if the key exists, else appends. -/
def register_node (reg : Registry) (node_type node_class : String) : Registry :=
  if reg.any (fun kv => kv.1 == node_type) then
    setAssoc reg node_type (fun _ => node_class)
  else reg ++ [(node_type, node_class)]

/-- `get_node_class`: `REGISTERED_NODES.get(node_type)`. -/
def get_node_class (reg : Registry) (node_type : String) : Option String :=
  getAssoc reg node_type

/-- `load_custom_nodes`: registers each discovered custom node only
`if node_type not in REGISTERED_NODES`. -/
def load_custom_nodes (reg : Registry) (custom : List (String × String)) : Registry :=
  custom.foldl
    (fun r kv => if r.any (fun e => e.1 == kv.1) then r else register_node r kv.1 kv.2)
    reg

/-- A Python inputs dict for `ComparisonNode.execute`, with `Int` operand
values. -/
abbrev PyInputs := List (String × Int)

/-- Python `inputs.get(key, default)`. -/
def dict_get (m : PyInputs) (k : String) (d : Int) : Int :=
  (getAssoc m k).getD d

/-- The `operators` dict of `ComparisonNode.execute` together with the
fallback `operators.get(operator, operators[eq])`: an unknown operator name
selects the equality comparison. -/
def comparison_operators (op : String) (a b : Int) : Bool :=
  if op == "==" then a == b
  else if op == "!=" then a != b
  else if op == ">" then decide (a > b)
  else if op == "<" then decide (a < b)
  else if op == ">=" then decide (a ≥ b)
  else if op == "<=" then decide (a ≤ b)
  else a == b

/-- `ComparisonNode.execute` (src/nodes/sys_nodes/logic_nodes.py): operand
selection with nested dict defaults, then the operator dispatch.  The
returned boolean is the `result.value` of the output dict. -/
def comparison_execute (operator : String) (compare_param : Int) (inputs : PyInputs) : Bool :=
  let value := dict_get inputs "left" (dict_get inputs "value_in" 0)
  let compare_value :=
    dict_get inputs "right" (dict_get inputs "compare_value" compare_param)
  comparison_operators operator value compare_value

/-- Example session: an Action Execution node (id 0, ports 0/1). -/
def sceneA : Scene := create_node initScene "Action Execution" []

/-- Example session: plus a Logic Control node in if-mode (id 1, ports 2–10,
port 3 is the `condition` in-port). -/
def sceneAL : Scene := create_node sceneA "Logic Control" []

/-- Example session: the action node's `flow_out` port (id 1) connected to the
logic node's `condition` port (id 3); connection id 0. -/
def sceneConnected : Scene := (finish_connection (start_connection sceneAL 1) 3).1

theorem create_node_nodeSeq (s : Scene) (name : String) (features : List String) :
    (create_node s name features).nodeSeq = s.nodeSeq + 1 := rfl

theorem delete_items_node_nodeSeq (s : Scene) (nid : Nat) :
    (delete_items_node s nid).nodeSeq = s.nodeSeq := by
  unfold delete_items_node
  split <;> rfl

theorem step_op_nodeSeq (s : Scene) (op : SceneOp) :
    (step_op s op).nodeSeq = s.nodeSeq + (match op with | .create _ _ => 1 | .deleteSel _ => 0) := by
  cases op with
  | create name features => exact create_node_nodeSeq s name features
  | deleteSel nid => simpa using delete_items_node_nodeSeq s nid

theorem issued_ids_eq_range' (s : Scene) (ops : List SceneOp) :
    issued_ids s ops = List.range' s.nodeSeq (create_count ops) := by
  induction ops generalizing s with
  | nil => rfl
  | cons op rest ih =>
    cases op with
    | create name features =>
      rw [issued_ids, create_count, List.range'_succ]
      have hseq : (step_op s (.create name features)).nodeSeq = s.nodeSeq + 1 :=
        create_node_nodeSeq s name features
      rw [ih (step_op s (.create name features)), hseq]
    | deleteSel nid =>
      rw [issued_ids, create_count]
      have hseq : (step_op s (.deleteSel nid)).nodeSeq = s.nodeSeq :=
        delete_items_node_nodeSeq s nid
      rw [ih (step_op s (.deleteSel nid)), hseq]

theorem sorted_lt_range' (a n : Nat) : (List.range' a n).Sorted (· < ·) := by
  induction n generalizing a with
  | zero => simp [List.Sorted]
  | succ k ih =>
    rw [List.range'_succ]
    refine List.sorted_cons.mpr ⟨?_, ih (a + 1)⟩
    intro b hb
    obtain ⟨i, _, rfl⟩ := List.mem_range'.mp hb
    omega

/-- C1: over every session of `create_node` / `_delete_items` operations, the
node identities issued by `create_node` are strictly increasing in issue
order (hence unique), and an id is never reused after deletions, since
`_delete_items` leaves `_node_seq` untouched. -/
theorem c1_node_ids_unique_monotone (ops : List SceneOp) :
    (issued_ids initScene ops).Sorted (· < ·) ∧ (issued_ids initScene ops).Nodup := by
  rw [issued_ids_eq_range' initScene ops]
  refine ⟨sorted_lt_range' _ _, ?_⟩
  exact (sorted_lt_range' _ _).imp Nat.ne_of_lt

theorem getAssoc_mem [BEq κ] [LawfulBEq κ] (l : List (κ × α)) (k : κ) (v : α)
    (h : getAssoc l k = some v) : (k, v) ∈ l := by
  unfold getAssoc at h
  cases hf : l.find? (fun kv => kv.1 == k) with
  | none => rw [hf] at h; simp at h
  | some kv =>
    rw [hf] at h
    have hkey := List.find?_some hf
    have hmem := List.mem_of_find?_eq_some hf
    obtain ⟨a, b⟩ := kv
    simp at h hkey
    rw [hkey] at hmem
    rw [h] at hmem
    exact hmem

theorem mem_remove_scene_conn (cs : List Nat) (cid c : Nat) :
    c ∈ remove_scene_conn cs cid ↔ c ∈ cs ∧ c ≠ cid := by
  simp [remove_scene_conn]

theorem mem_delete_conns_of_port (conns : List Nat) (cs : List Nat) (c : Nat) :
    c ∈ delete_conns_of_port cs conns ↔ c ∈ cs ∧ c ∉ conns := by
  induction conns generalizing cs with
  | nil => simp [delete_conns_of_port]
  | cons hd tl ih =>
    have hrw : delete_conns_of_port cs (hd :: tl)
        = delete_conns_of_port (remove_scene_conn cs hd) tl := rfl
    rw [hrw, ih, mem_remove_scene_conn]
    simp only [List.mem_cons]
    tauto

theorem mem_delete_ports_foldl (pps : List (Nat × PortData)) (cs : List Nat) (c : Nat) :
    c ∈ pps.foldl (fun acc pp => delete_conns_of_port acc pp.2.conns) cs ↔
      c ∈ cs ∧ ∀ pp ∈ pps, c ∉ pp.2.conns := by
  induction pps generalizing cs with
  | nil => simp
  | cons hd tl ih =>
    rw [List.foldl_cons, ih, mem_delete_conns_of_port]
    simp only [List.mem_cons]
    constructor
    · rintro ⟨⟨h1, h2⟩, h3⟩
      exact ⟨h1, by rintro pp (rfl | hpp); exact h2; exact h3 pp hpp⟩
    · rintro ⟨h1, h2⟩
      exact ⟨⟨h1, h2 hd (Or.inl rfl)⟩, fun pp hpp => h2 pp (Or.inr hpp)⟩

theorem mem_delete_node_connections (s : Scene) (nid c : Nat) :
    c ∈ (delete_node_connections s nid).sceneConns ↔
      c ∈ s.sceneConns ∧
        ∀ pp ∈ s.ports.filter (fun pp => pp.2.node == nid), c ∉ pp.2.conns := by
  unfold delete_node_connections
  exact mem_delete_ports_foldl _ _ _

theorem delete_items_node_sceneConns (s : Scene) (nid : Nat)
    (hn : (findNode s nid).isSome = true) :
    (delete_items_node s nid).sceneConns = (delete_node_connections s nid).sceneConns := by
  unfold delete_items_node
  rw [if_pos hn]
  rfl

/-- The lazily maintained attachment invariant of the scene: every connection
currently in the scene is recorded in the `data(2)` list of each port it
references.  `_create_connection` and `_finish_reconnection` attach both /
the new endpoint, so reachable scenes satisfy it. -/
def attach_inv (s : Scene) : Bool :=
  s.sceneConns.all (fun cid =>
    match findConn s cid with
    | none => true
    | some c =>
      s.ports.all (fun pp =>
        if c.outPort == some pp.1 || c.inPort == some pp.1 then pp.2.conns.contains cid
        else true))

/-- C2 (amended): after `_delete_items` deletes a node, no connection that
references one of that node's ports is left in the scene — in particular
every connection incident on the node has been removed.  (The claim's further
assertion that no surviving port's connection list references the deleted
node's ports is refuted by `c2_counterexample`: `_delete_node_connections`
removes the incident connections from the scene without detaching them from
their other endpoint's list.) -/
theorem c2_no_scene_connection_references_deleted_node (s : Scene) (nid : Nat)
    (hn : (findNode s nid).isSome = true) (hinv : attach_inv s = true)
    (cid : Nat) (c : ConnData) (hfc : findConn s cid = some c)
    (pid : Nat) (p : PortData) (hp : findPort s pid = some p) (hpn : p.node = nid)
    (he : c.outPort = some pid ∨ c.inPort = some pid) :
    cid ∉ (delete_items_node s nid).sceneConns := by
  intro hmem
  rw [delete_items_node_sceneConns s nid hn, mem_delete_node_connections] at hmem
  obtain ⟨hscene, hall⟩ := hmem
  have hpair : (pid, p) ∈ s.ports := getAssoc_mem s.ports pid p hp
  have hfilter : (pid, p) ∈ s.ports.filter (fun pp => pp.2.node == nid) := by
    rw [List.mem_filter]
    exact ⟨hpair, by simpa using hpn⟩
  have hnotin : cid ∉ p.conns := hall (pid, p) hfilter
  have h1 := (List.all_eq_true.mp hinv) cid hscene
  rw [hfc] at h1
  have h2 := (List.all_eq_true.mp h1) (pid, p) hpair
  have hcond : (c.outPort == some pid || c.inPort == some pid) = true := by
    rcases he with he | he <;> simp [he]
  rw [hcond] at h2
  simp only [if_true] at h2
  exact hnotin (by simpa using h2)

/-- The example scene after deleting the Logic Control node (id 1). -/
def sceneDeleted : Scene := delete_items_node sceneConnected 1

/-- C2 counterexample: in the concrete session of `sceneConnected`, deleting
node 1 removes connection 0 from the scene, but the surviving action node's
`flow_out` port (id 1) still lists connection 0, and that connection still
references port 3 — a port of the deleted node (which indeed no longer
exists).  So "no remaining port's connection list references the deleted
node's ports" is false as stated. -/
theorem c2_counterexample :
    (findPort sceneDeleted 1).map (fun p => p.conns) = some [0] ∧
    findConn sceneDeleted 0 = some ⟨some 1, some 3⟩ ∧
    findPort sceneDeleted 3 = none ∧
    (findPort sceneConnected 3).map (fun p => p.node) = some 1 ∧
    sceneDeleted.sceneConns = [] :=
  ⟨rfl, rfl, rfl, rfl, rfl⟩

/-- Witness for `c2_no_scene_connection_references_deleted_node` at the
concrete session: connection 0 (incident on the deleted node 1 via port 3) is
gone from the scene after the deletion. -/
theorem c2_amended_witness :
    (0 : Nat) ∉ (delete_items_node sceneConnected 1).sceneConns :=
  c2_no_scene_connection_references_deleted_node sceneConnected 1 (by decide) (by decide)
    0 ⟨some 1, some 3⟩ (by decide) 3 ⟨1, .din, "condition", [0]⟩ (by decide) rfl
    (Or.inr rfl)

/-- C3: releasing a fresh connection onto a port of the same direction as the
gesture's start port makes `_finish_connection` log the direction-mismatch
warning and abort the gesture: no connection is created, no port list is
touched, no widget/parameter field is written, and the code text is not
regenerated. -/
theorem c3_same_direction_connect_rejected (s : Scene) (startPid targetPid : Nat)
    (sp tp : PortData)
    (hstart : s.tempStartPort = some startPid)
    (hsp : findPort s startPid = some sp) (htp : findPort s targetPid = some tp)
    (hdir : sp.dir = tp.dir) :
    (finish_connection s targetPid).2 = .directionMismatch ∧
    (finish_connection s targetPid).1.nodes = s.nodes ∧
    (finish_connection s targetPid).1.ports = s.ports ∧
    (finish_connection s targetPid).1.connArena = s.connArena ∧
    (finish_connection s targetPid).1.sceneConns = s.sceneConns ∧
    (finish_connection s targetPid).1.editorText = s.editorText := by
  have hb : (sp.dir == tp.dir) = true := by simp [hdir]
  simp [finish_connection, hstart, hsp, htp, hb, cancel_connection]

/-- Witness for `c3_same_direction_connect_rejected`: dragging from the logic
node's `flow_in` port (id 2) and releasing on its `condition` port (id 3),
both of direction `in`, is rejected and changes nothing. -/
theorem c3_witness :
    (finish_connection (start_connection sceneAL 2) 3).2 = ConnectResult.directionMismatch ∧
    (finish_connection (start_connection sceneAL 2) 3).1.sceneConns = sceneAL.sceneConns := by
  have h := c3_same_direction_connect_rejected (start_connection sceneAL 2) 2 3
    ⟨1, .din, "flow_in", []⟩ ⟨1, .din, "condition", []⟩ rfl (by decide) (by decide) rfl
  exact ⟨h.1, h.2.2.2.2.1⟩

theorem getAssoc_setAssoc_map_proj [BEq κ] [LawfulBEq κ] (l : List (κ × α)) (k k' : κ)
    (f : α → α) (proj : α → β) (hproj : ∀ a, proj (f a) = proj a) :
    (getAssoc (setAssoc l k f) k').map proj = (getAssoc l k').map proj := by
  by_cases h : k = k'
  · subst h
    rw [getAssoc_setAssoc_self]
    cases getAssoc l k with
    | none => rfl
    | some a => simp [hproj]
  · rw [getAssoc_setAssoc_ne _ _ _ _ h]

theorem findPort_update_conns (s : Scene) (x : Nat) (g : List Nat → List Nat) (y : Nat) :
    (findPort (updatePort s x (fun q => { q with conns := g q.conns })) y).map
        (fun q => (q.slot, q.node))
      = (findPort s y).map (fun q => (q.slot, q.node)) := by
  exact getAssoc_setAssoc_map_proj s.ports x y (fun q => { q with conns := g q.conns })
    (fun q => (q.slot, q.node)) (fun a => rfl)

theorem exists_proj_port (s1 s : Scene) (y : Nat) (p : PortData)
    (hpres : ∀ z, (findPort s1 z).map (fun q => (q.slot, q.node))
      = (findPort s z).map (fun q => (q.slot, q.node)))
    (hp : findPort s y = some p) :
    ∃ p1, findPort s1 y = some p1 ∧ p1.slot = p.slot ∧ p1.node = p.node := by
  have hy := hpres y
  rw [hp] at hy
  cases h1 : findPort s1 y with
  | none => rw [h1] at hy; simp at hy
  | some p1 =>
    rw [h1] at hy
    simp at hy
    exact ⟨p1, rfl, hy.1, hy.2⟩

theorem clear_condition_yields_empty (s0 : Scene) (ipid : Nat) (p0 : PortData) (n : NodeData)
    (hp0 : findPort s0 ipid = some p0) (hslot : p0.slot = "condition")
    (hn0 : findNode s0 p0.node = some n) (hk : n.kind = .logicControl)
    (hv : condition_input_visible n = true) :
    findNode (clear_input_for_port s0 ipid) p0.node
      = some { n with conditionText := "" } := by
  simp only [clear_input_for_port, hp0, hn0]
  have hstep : findNode (updateNode s0 p0.node fun m => clear_slot m p0.slot) p0.node
      = (findNode s0 p0.node).map fun m => clear_slot m p0.slot :=
    getAssoc_setAssoc_self s0.nodes p0.node (fun m => clear_slot m p0.slot)
  rw [hstep, hn0]
  simp [clear_slot, hslot, hk, hv]

theorem findNode_detach_out_step (s : Scene) (cid : Nat) (co : Option Nat) (nid : Nat) :
    findNode (detach_out_step s cid co) nid = findNode s nid := by
  unfold detach_out_step
  split
  · split
    · split <;> rfl
    · rfl
  · rfl

theorem findPort_detach_out_step (s : Scene) (cid : Nat) (co : Option Nat) (y : Nat) :
    (findPort (detach_out_step s cid co) y).map (fun q => (q.slot, q.node))
      = (findPort s y).map (fun q => (q.slot, q.node)) := by
  unfold detach_out_step
  split
  · split
    · split
      · exact findPort_update_conns s _ (fun l => List.erase l cid) y
      · rfl
    · rfl
  · rfl

theorem detach_in_step_clears (t : Scene) (cid ipid : Nat) (p1 : PortData) (n : NodeData)
    (hp1 : findPort t ipid = some p1) (hslot : p1.slot = "condition")
    (hn1 : findNode t p1.node = some n) (hk : n.kind = .logicControl)
    (hv : condition_input_visible n = true) :
    findNode (detach_in_step t cid (some ipid)) p1.node
      = some { n with conditionText := "" } := by
  simp only [detach_in_step, hp1]
  by_cases hct : p1.conns.contains cid
  · simp only [if_pos hct]
    obtain ⟨p2, hp2, hs2, hn2⟩ :=
      exists_proj_port _ t ipid p1
        (fun z => findPort_update_conns t ipid (fun l => List.erase l cid) z) hp1
    have hnode2 : findNode (updatePort t ipid
        fun q => { q with conns := List.erase q.conns cid }) p2.node = some n := by
      rw [hn2]; exact hn1
    have hres := clear_condition_yields_empty _ ipid p2 n hp2 (hs2.trans hslot) hnode2 hk hv
    rw [hn2] at hres
    exact hres
  · simp only [if_neg hct]
    exact clear_condition_yields_empty t ipid p1 n hp1 hslot hn1 hk hv

/-- C4 (amended): disconnecting a connection (deleting the selected
`ConnectionItem`) resets the destination parameter field to its EMPTY
placeholder value — here for the canonical destination, a visible condition
input of a Logic Control node in if-mode — regardless of what the field held
before the connection was made.  The round-trip of the original claim
therefore holds exactly when the pre-connect value was the empty string; see
`c4_counterexample` for a non-empty pre-connect value. -/
theorem c4_disconnect_clears_condition_to_empty (s : Scene) (cid : Nat) (c : ConnData)
    (ipid : Nat) (p : PortData) (n : NodeData)
    (hc : findConn s cid = some c) (hip : c.inPort = some ipid)
    (hp : findPort s ipid = some p) (hslot : p.slot = "condition")
    (hn : findNode s p.node = some n) (hk : n.kind = .logicControl)
    (hv : condition_input_visible n = true) :
    findNode (delete_connection_item s cid) p.node
      = some { n with conditionText := "" } := by
  have hdetach : findNode (detach_connection s cid) p.node
      = some { n with conditionText := "" } := by
    unfold detach_connection
    rw [hc]
    show findNode (detach_in_step (detach_out_step s cid c.outPort) cid c.inPort) p.node = _
    rw [hip]
    set t := detach_out_step s cid c.outPort with ht
    obtain ⟨p1, hp1, hs1, hn1⟩ :=
      exists_proj_port t s ipid p (fun z => findPort_detach_out_step s cid c.outPort z) hp
    have hnode1 : findNode t p1.node = some n := by
      rw [hn1, ht, findNode_detach_out_step]
      exact hn
    have hres := detach_in_step_clears t cid ipid p1 n hp1 (hs1.trans hslot) hnode1 hk hv
    rw [hn1] at hres
    exact hres
  exact hdetach

/-- The example session with a user-typed condition expression before the
connection is made. -/
def sceneC4pre : Scene := set_condition_text sceneAL 1 "x > 5"

/-- ... then the action node's `flow_out` (port 1) is connected to the logic
node's `condition` (port 3). -/
def sceneC4conn : Scene := (finish_connection (start_connection sceneC4pre 1) 3).1

/-- ... then the resulting connection (id 0) is deleted (disconnect). -/
def sceneC4disc : Scene := delete_connection_item sceneC4conn 0

/-- C4 counterexample: with pre-connect condition text `"x > 5"`, connect then
disconnect leaves the destination field empty — NOT the pre-connect value, so
the round-trip identity fails for non-empty pre-existing values. -/
theorem c4_counterexample :
    (findNode sceneC4pre 1).map (fun n => n.conditionText) = some "x > 5" ∧
    (findNode sceneC4conn 1).map (fun n => n.conditionText)
      = some "Action Execution.flow_out" ∧
    (findNode sceneC4disc 1).map (fun n => n.conditionText) = some "" ∧
    ("" : String) ≠ "x > 5" :=
  ⟨rfl, rfl, rfl, by decide⟩

/-- Witness for `c4_disconnect_clears_condition_to_empty` at the concrete
session: after deleting connection 0 the condition field of node 1 is empty. -/
theorem c4_amended_witness :
    (findNode (delete_connection_item sceneC4conn 0) 1).map (fun n => n.conditionText)
      = some "" := by
  have h := c4_disconnect_clears_condition_to_empty sceneC4conn 0 ⟨some 1, some 3⟩ 3
    ⟨1, .din, "condition", [0]⟩
    ⟨"Logic Control", .logicControl, "If", "Action Execution.flow_out", "Condition",
      [], "While", "", "", "", "", ""⟩
    (by decide) rfl (by decide) rfl (by decide) rfl (by decide)
  rw [show ((⟨1, Dir.din, "condition", [0]⟩ : PortData).node) = 1 from rfl] at h
  rw [h]
  rfl

/-- C5 counterexample: in the claim's scenario (action node wired into the if
node's condition), the generated text's condition line carries the expression
`"Action Execution.flow_out"` — the out slot of an action node is named
`flow_out`, not `out` — so no line carries `"Action Execution.out"`. -/
theorem c5_counterexample :
    ((regenerate_code sceneConnected).contains "    # condition: Action Execution.out"
      = false) ∧
    ((regenerate_code sceneConnected).contains "    # condition: Action Execution.flow_out"
      = true) :=
  ⟨rfl, rfl⟩

/-- C5 (amended): in the scenario, the source label written into the condition
slot is `"<source node name>.flow_out"`, and the generated text contains the
corresponding condition line. -/
theorem c5_amended_condition_expression_is_flow_out :
    format_connection_label sceneAL 1 = "Action Execution.flow_out" ∧
    "    # condition: Action Execution.flow_out" ∈ regenerate_code sceneConnected :=
  ⟨rfl, by decide⟩

/-- C6: code generation is a pure function of the graph state: regenerating a
second time with no intervening graph modification leaves the scene unchanged
and emits byte-identical text (node iteration order is the fixed stacking
order of the scene's items). -/
theorem c6_codegen_deterministic (s : Scene) :
    regen_op (regen_op s) = regen_op s ∧
    (regen_op (regen_op s)).editorText = (regen_op s).editorText :=
  ⟨rfl, rfl⟩

/-- The example scene plus a Comparison node (id 2; port 11 is its `left`
in-port, port 12 `right`, port 13 `result`). -/
def sceneC7 : Scene := create_node sceneConnected "Condition" []

/-- Reconnection gesture: grab the `start` (out) endpoint of connection 0 and
release it on the Comparison node's `left` IN-port. -/
def sceneC7reconn : Scene := finish_reconnection (start_reconnection sceneC7 0 "start") 11

/-- The same gesture released on a second action node's `flow_out` OUT-port
(port 12 of that scene) — the direction a reconnection of the out end should
accept. -/
def sceneC7valid : Scene :=
  finish_reconnection
    (start_reconnection (create_node sceneConnected "Action Execution" []) 0 "start") 12

/-- C7 (code bug, evaluated at the failing input): `_finish_reconnection`
compares the drop target's direction against the ORIGINAL direction of the
grabbed end rather than against what the still-fixed end requires, so the
check is exactly inverted.  Grabbing the out end of connection 0 and dropping
it on an IN-port (11) is accepted, leaving a connection whose two endpoints
(11 and 3) are both `in` ports — violating the direction invariant the code
itself enforces in `_finish_connection` ("Cannot connect ports of the same
type") — while dropping it on a valid OUT-port (`sceneC7valid`) is rejected
and the connection is left dangling with `out_port = None` instead of being
restored. -/
theorem c7_code_bug_reconnect_direction_inverted :
    findConn sceneC7reconn 0 = some ⟨some 11, some 3⟩ ∧
    (findPort sceneC7reconn 11).map (fun p => p.dir) = some .din ∧
    (findPort sceneC7reconn 3).map (fun p => p.dir) = some .din ∧
    (0 : Nat) ∈ sceneC7reconn.sceneConns ∧
    (findNode sceneC7reconn 1).map (fun n => n.conditionText) = some "Condition.left" ∧
    findConn sceneC7valid 0 = some ⟨none, some 3⟩ ∧
    (findPort sceneC7valid 12).map (fun p => p.dir) = some .dout :=
  ⟨rfl, rfl, rfl, by decide, rfl, rfl, rfl⟩

theorem foldl_min_mem (c : Int × PPort) (cs : List (Int × PPort)) :
    cs.foldl (fun best x => if x.1 < best.1 then x else best) c ∈ c :: cs := by
  induction cs generalizing c with
  | nil => simp
  | cons d ds ih =>
    rw [List.foldl_cons]
    by_cases hlt : d.1 < c.1
    · rw [if_pos hlt]
      rcases List.mem_cons.mp (ih d) with h1 | h2
      · rw [h1]
        exact List.mem_cons.mpr (Or.inr (List.mem_cons_self d ds))
      · exact List.mem_cons.mpr (Or.inr (List.mem_cons.mpr (Or.inr h2)))
    · rw [if_neg hlt]
      rcases List.mem_cons.mp (ih c) with h1 | h2
      · rw [h1]
        exact List.mem_cons_self c (d :: ds)
      · exact List.mem_cons.mpr (Or.inr (List.mem_cons.mpr (Or.inr h2)))

theorem foldl_min_le (c : Int × PPort) (cs : List (Int × PPort)) :
    ∀ x ∈ c :: cs, (cs.foldl (fun best x => if x.1 < best.1 then x else best) c).1 ≤ x.1 := by
  induction cs generalizing c with
  | nil =>
    intro x hx
    rcases List.mem_cons.mp hx with rfl | h
    · exact le_refl _
    · simp at h
  | cons d ds ih =>
    intro x hx
    rw [List.foldl_cons]
    have hble_c : (if d.1 < c.1 then d else c).1 ≤ c.1 := by
      by_cases hlt : d.1 < c.1
      · rw [if_pos hlt]; omega
      · rw [if_neg hlt]
    have hble_d : (if d.1 < c.1 then d else c).1 ≤ d.1 := by
      by_cases hlt : d.1 < c.1
      · rw [if_pos hlt]
      · rw [if_neg hlt]; omega
    rcases List.mem_cons.mp hx with rfl | hx'
    · exact le_trans (ih _ _ (List.mem_cons_self _ _)) hble_c
    · rcases List.mem_cons.mp hx' with rfl | hx''
      · exact le_trans (ih _ _ (List.mem_cons_self _ _)) hble_d
      · exact ih _ x (List.mem_cons.mpr (Or.inr hx''))

/-- C8 (amended): `_find_port_near` returns the first port of minimal squared
Euclidean distance among the ports intersecting the 28×28 axis-aligned search
SQUARE centred on the release point (deterministically in the spatial index's
iteration order) — not among the ports within 14px Euclidean distance: a
returned port's centre may be up to `14·√2` (plus its own radius) away, see
`c8_counterexample`. -/
theorem c8_nearest_within_search_square (ports : List PPort) (px py : Int) (p : PPort)
    (h : find_port_near ports px py = some p) :
    p ∈ ports ∧ in_search_rect p px py 14 = true ∧
      ∀ q ∈ ports, in_search_rect q px py 14 = true → dist2 p px py ≤ dist2 q px py := by
  rcases hc : (ports.filter (fun q => in_search_rect q px py 14)).map
      (fun q => (dist2 q px py, q)) with _ | ⟨c, cs⟩
  · unfold find_port_near at h
    rw [hc] at h
    simp at h
  · unfold find_port_near at h
    rw [hc] at h
    simp only [Option.some_inj] at h
    have hmem : cs.foldl (fun best x => if x.1 < best.1 then x else best) c ∈ c :: cs :=
      foldl_min_mem c cs
    rw [← hc] at hmem
    obtain ⟨q0, hq0mem, hq0eq⟩ := List.mem_map.mp hmem
    have hq0p : q0 = p := by
      have := congrArg Prod.snd hq0eq
      simpa [h] using this
    have hq0d : (cs.foldl (fun best x => if x.1 < best.1 then x else best) c).1
        = dist2 p px py := by
      have := congrArg Prod.fst hq0eq
      simp at this
      rw [← this, hq0p]
    obtain ⟨hq0ports, hq0rect⟩ := List.mem_filter.mp hq0mem
    refine ⟨hq0p ▸ hq0ports, hq0p ▸ hq0rect, ?_⟩
    intro q hq hqrect
    have hqcand : (dist2 q px py, q) ∈ (ports.filter (fun r => in_search_rect r px py 14)).map
        (fun r => (dist2 r px py, r)) :=
      List.mem_map.mpr ⟨q, List.mem_filter.mpr ⟨hq, hqrect⟩, rfl⟩
    rw [hc] at hqcand
    have := foldl_min_le c cs (dist2 q px py, q) hqcand
    rw [hq0d] at this
    exact this

/-- C8 counterexample: the release point `(0,0)` with a single port centred at
`(13,13)` (radius 4): the port lies inside the 28×28 search square, so it is
returned, yet its centre is at squared distance `338 > 196 = 14²` from the
release point — farther than the snap radius. -/
theorem c8_counterexample :
    find_port_near [⟨13, 13, 4⟩] 0 0 = some ⟨13, 13, 4⟩ ∧
    dist2 ⟨13, 13, 4⟩ 0 0 = 338 ∧ ((14 : Int) ^ 2 < 338) :=
  ⟨rfl, rfl, by decide⟩

/-- Witness for `c8_nearest_within_search_square` at the concrete input of the
counterexample. -/
theorem c8_amended_witness :
    (⟨13, 13, 4⟩ : PPort) ∈ [(⟨13, 13, 4⟩ : PPort)] ∧
    in_search_rect ⟨13, 13, 4⟩ 0 0 14 = true :=
  ⟨(c8_nearest_within_search_square [⟨13, 13, 4⟩] 0 0 ⟨13, 13, 4⟩ (by decide)).1,
   (c8_nearest_within_search_square [⟨13, 13, 4⟩] 0 0 ⟨13, 13, 4⟩ (by decide)).2.1⟩

/-- C9 counterexample: `register_node` on an already-registered kind does not
fail — it silently replaces the existing registration (`REGISTERED_NODES[t] =
cls` is a plain dict assignment). -/
theorem c9_counterexample :
    get_node_class (register_node [("if", "IfNode")] "if" "OtherNode") "if"
      = some "OtherNode" ∧
    register_node [("if", "IfNode")] "if" "OtherNode" ≠ [("if", "IfNode")] :=
  ⟨rfl, by decide⟩

/-- C9 (amended): `register_node` never fails and silently overwrites; the
module's only duplicate-registration path, `load_custom_nodes`, skips kinds
already present (`if node_type not in REGISTERED_NODES`), so loading custom
nodes never overwrites an existing registration. -/
theorem c9_load_custom_nodes_never_overwrites (reg : Registry)
    (custom : List (String × String)) (t c : String)
    (h : get_node_class reg t = some c) :
    get_node_class (load_custom_nodes reg custom) t = some c := by
  induction custom generalizing reg with
  | nil => exact h
  | cons kv tl ih =>
    have hstep : load_custom_nodes reg (kv :: tl)
        = load_custom_nodes
            (if reg.any (fun e => e.1 == kv.1) then reg else register_node reg kv.1 kv.2)
            tl := rfl
    rw [hstep]
    by_cases hpres : reg.any (fun e => e.1 == kv.1) = true
    · rw [if_pos hpres]
      exact ih reg h
    · rw [if_neg hpres]
      apply ih
      unfold register_node
      rw [if_neg hpres]
      exact getAssoc_append_left reg [(kv.1, kv.2)] t c h

/-- Witness for `c9_load_custom_nodes_never_overwrites`: a custom-node load
offering a clashing `"if"` kind leaves the built-in registration in place. -/
theorem c9_amended_witness :
    get_node_class
        (load_custom_nodes [("if", "IfNode")] [("if", "OtherNode"), ("my_custom", "MyNode")])
        "if" = some "IfNode" :=
  c9_load_custom_nodes_never_overwrites [("if", "IfNode")]
    [("if", "OtherNode"), ("my_custom", "MyNode")] "if" "IfNode" (by decide)

/-- C10: `ComparisonNode.execute` with an `operator` parameter outside the six
known names does not raise (`operators.get(operator, operators[eq-key])` is a
total dict lookup with a default) and computes exactly what the `'=='`
operator computes on the same inputs: the unknown operator silently falls
back to equality comparison. -/
theorem c10_unknown_operator_falls_back_to_eq (op : String) (cv : Int) (inputs : PyInputs)
    (h : op ∉ (["==", "!=", ">", "<", ">=", "<="] : List String)) :
    comparison_execute op cv inputs = comparison_execute "==" cv inputs := by
  simp only [List.mem_cons, List.mem_singleton, not_or] at h
  obtain ⟨h1, h2, h3, h4, h5, h6, _⟩ := h
  unfold comparison_execute comparison_operators
  rw [beq_eq_false_iff_ne.mpr h1, beq_eq_false_iff_ne.mpr h2, beq_eq_false_iff_ne.mpr h3,
      beq_eq_false_iff_ne.mpr h4, beq_eq_false_iff_ne.mpr h5, beq_eq_false_iff_ne.mpr h6]
  simp

/-- Witness for `c10_unknown_operator_falls_back_to_eq` at the unknown
operator `"~"`. -/
theorem c10_witness :
    comparison_execute "~" 0 [("left", 3), ("right", 3)]
        = comparison_execute "==" 0 [("left", 3), ("right", 3)] ∧
    comparison_execute "~" 0 [("left", 3), ("right", 3)] = true :=
  ⟨c10_unknown_operator_falls_back_to_eq "~" 0 [("left", 3), ("right", 3)] (by decide),
   rfl⟩
